import Mathlib

/-!
Shallow embedding of `bot.py` from the will-chat-telegram repository: a
Telegram chat bot that relays user messages to the OpenRouter completion
endpoint with a per-user API key.

Modelling conventions:
* Per-user storage (`context.user_data["api_key"]` in python-telegram-bot) is
  an `Option String`: `some k` means the key `k` is stored for the user,
  `none` means no `"api_key"` entry exists.  The dict holds at most one value
  under the key `"api_key"`, which `Option` captures by construction.
* Each handler is a pure function from its inputs (stored key, inbound
  update, and the outcome of the external calls it makes) to the updated
  stored key plus an ordered list of observable effects (replies sent,
  chat actions, the outbound completion request, message deletions, log
  lines).  The LLM provider is passed as a function from the request
  arguments to a result, mirroring `client.chat.completions.create`.
* A python exception that escapes the handler is modelled as `Except.error`
  with the exception text; exceptions of out-of-scope transports
  (`reply_text`, `send_chat_action`) are not modelled, matching the spec's
  black-box treatment of the messaging platform.
* Python string slicing `s[:n]` / `s[-n:]` operates on code points, embedded
  on `String.data`; python truthiness of strings (empty string is falsy) is
  modelled explicitly where the source uses `if not x` / `if x`.
-/

namespace WillBot

/-- A Telegram message; `text` is optional exactly as in the python API. -/
structure Message where
  text : Option String
deriving DecidableEq, Repr

/-- An inbound Telegram update: the effective user id and the optional
message payload, the two fields `bot.py` reads. -/
structure Update where
  effectiveUserId : Nat
  message : Option Message
deriving DecidableEq, Repr

/-- Role tag of a chat-completion message. -/
inductive ChatRole
  | system
  | user
deriving DecidableEq, Repr

/-- One entry of the `messages` array sent to the completion endpoint. -/
structure ChatMsg where
  role : ChatRole
  content : String
deriving DecidableEq, Repr

/-- The `message` object inside a completion choice. -/
structure ChoiceMessage where
  content : String
deriving DecidableEq, Repr

/-- One completion choice of a provider response. -/
structure Choice where
  message : ChoiceMessage
deriving DecidableEq, Repr

/-- A provider response: the list of completion choices. -/
structure Completion where
  choices : List Choice
deriving DecidableEq, Repr

/-- Severity of a log line (`logger.info` / `logger.warning` / `logger.error`). -/
inductive LogLevel
  | info
  | warning
  | error
deriving DecidableEq, Repr

/-- Observable effects of a handler, in execution order. -/
inductive Effect
  | reply (text : String)
  | chatAction
  | completionRequest (apiKey modelName : String) (messages : List ChatMsg)
  | deleteMessage
  | log (level : LogLevel) (msg : String)
deriving DecidableEq, Repr

/-- The remote completion endpoint, as the dispatcher sees it: called once
with the api key, model name and messages; returns a completion or raises
(the `Except.error` carries `str(e)`). -/
abbrev Provider : Type := String → String → List ChatMsg → Except String Completion

/-- `bot.py` line 35: the single fixed model identifier. -/
def MODELLO_IA : String := "mistralai/mistral-small-3.2-24b-instruct:free"

/-- `bot.py` lines 36-42: the fixed system prompt (the concatenation of the
string literals present in the source). -/
def SYSTEM_PROMPT : String :=
  "You are an AI assistant named \x27Will\x27, and you will always be ready to respond "
  ++ "with short, accurate answers or long, detailed ones depending on the context. "
  ++ "with the same language the user is speaking. If you\x27re asked, you\x27ll answer "
  ++ "that your creator is lollo21, an italian indie developer."

/-- `bot.py` line 88: usage error reply of `/setkey` without an argument. -/
def usageErrorMsg : String :=
  "Error: You must provide a key.\nUsage: /setkey <your_api_key>"

/-- `bot.py` lines 97-101: confirmation after the key message was deleted. -/
def savedOkMsg : String :=
  "✅ OpenRouter API key saved successfully! "
  ++ "Your original message has been deleted for security.\n\n"
  ++ "Now you can start chatting."

/-- `bot.py` lines 104-107: fallback notice when deleting the key message failed. -/
def savedFallbackMsg : String :=
  "✅ OpenRouter API key saved! "
  ++ "(I couldn\x27t delete your original message, please delete it manually)."

/-- `bot.py` line 114: reply of `/mykey` when no key is stored. -/
def noKeySetMsg : String :=
  "You haven\x27t set an API key yet. Use /setkey <your_key>."

/-- `bot.py` line 119: reply of `/delkey` when a key was removed. -/
def keyRemovedMsg : String := "🗑️ Your API key has been removed."

/-- `bot.py` line 121: reply of `/delkey` when no key is stored. -/
def noKeyToRemoveMsg : String := "You don\x27t have an API key to remove."

/-- `bot.py` lines 125-127: guidance reply when a chat message arrives with
no stored key. -/
def mustSetKeyMsg : String :=
  "You must set your OpenRouter API key first. Use the command: /setkey <your_api_key>"

/-- `bot.py` lines 155-157: reply when the provider error mentions an
incorrect API key. -/
def incorrectKeyMsg : String :=
  "😔 Your OpenRouter API key seems to be incorrect or invalid. Please try again with /setkey"

/-- `bot.py` line 159: generic provider-failure reply. -/
def genericErrorMsg : String := "😔 Sorry, an error occurred. Please try again later."

/-- `bot.py` line 154: the substring the error text is inspected for. -/
def incorrectKeySignal : String := "Incorrect API key"

/-- `bot.py` line 93: log line after storing a key. -/
def keySetLog (userId : Nat) : String := "API Key set for user " ++ toString userId

/-- `bot.py` line 103: log line when deleting the key message failed. -/
def couldNotDeleteLog (e : String) : String := "Could not delete the key message: " ++ e

/-- `bot.py` line 153: log line when the completion call raised. -/
def openRouterErrLog (userId : Nat) (e : String) : String :=
  "Error calling OpenRouter for user " ++ toString userId ++ ": " ++ e

/-- Boolean prefix test on char lists (used to embed python's `in`). -/
def listPre : List Char → List Char → Bool
  | [], _ => true
  | _ :: _, [] => false
  | a :: as, b :: bs => a == b && listPre as bs

/-- Boolean contiguous-sublist test on char lists. -/
def listSub (needle : List Char) : List Char → Bool
  | [] => needle.isEmpty
  | b :: bs => listPre needle (b :: bs) || listSub needle bs

/-- Python's `needle in hay` on strings (code-point contiguous substring). -/
def pyIn (needle hay : String) : Bool := listSub needle.data hay.data

/-- Python's `s[:n]` (first `n` code points, all of `s` if shorter). -/
def pyTake (s : String) (n : Nat) : String := ⟨s.data.take n⟩

/-- Python's `s[-n:]` (last `n` code points, all of `s` if shorter). -/
def pyTakeLast (s : String) (n : Nat) : String := ⟨s.data.drop (s.length - n)⟩

/-- `bot.py` line 111: the masked preview `key[:4] + "..." + key[-4:]`. -/
def key_preview (key : String) : String := pyTake key 4 ++ "..." ++ pyTakeLast key 4

/-- `bot.py` lines 85-107, `set_key`: on missing argument reply with the usage
error and leave the store unchanged; otherwise store `args[0]`, log, then try
to delete the triggering message — on success confirm normally, on failure
log a warning and send the fallback notice.  `deleteResult` is the outcome of
`update.message.delete()` (`Except.error` carries the exception text). -/
def set_key (userId : Nat) (userData : Option String) (args : List String)
    (deleteResult : Except String Unit) : Option String × List Effect :=
  match args with
  | [] => (userData, [.reply usageErrorMsg])
  | user_key :: _ =>
    match deleteResult with
    | .ok _ =>
        (some user_key,
          [.log .info (keySetLog userId), .deleteMessage, .reply savedOkMsg])
    | .error e =>
        (some user_key,
          [.log .info (keySetLog userId), .log .warning (couldNotDeleteLog e),
           .reply savedFallbackMsg])

/-- `bot.py` lines 109-114, `my_key`: reply with the masked preview when a key
is stored, otherwise with the not-set guidance.  Reads the store only. -/
def my_key (userData : Option String) : List Effect :=
  match userData with
  | some key =>
      [.reply ("You have an API key set: \x60" ++ key_preview key ++ "\x60")]
  | none => [.reply noKeySetMsg]

/-- `bot.py` lines 116-121, `del_key`: remove the stored key and confirm, or
report that there is nothing to remove. -/
def del_key (userData : Option String) : Option String × List Effect :=
  match userData with
  | some _ => (none, [.reply keyRemovedMsg])
  | none => (none, [.reply noKeyToRemoveMsg])

/-- The `messages` array built at `bot.py` lines 143-146: the fixed system
prompt followed by the verbatim user text. -/
def requestMessages (userText : String) : List ChatMsg :=
  [⟨.system, SYSTEM_PROMPT⟩, ⟨.user, userText⟩]

/-- `bot.py` lines 123-159, `handle_message`: without a stored key reply with
the set-a-key guidance (raising if the update has no message, as
`update.message.reply_text` would); with a key, return silently when the
update has no message or no (non-empty) text; otherwise send a typing action,
issue exactly one completion request with the stored key, the fixed model and
`requestMessages`, and on success reply with the first choice's content — an
empty `choices` list makes `choices[0]` raise an IndexError which the
`except` turns into the generic reply; on provider failure log the error and
reply according to the `"Incorrect API key"` substring test.  The store is
never written. -/
def handle_message (userData : Option String) (update : Update)
    (provider : Provider) : Except String (Option String × List Effect) :=
  match userData with
  | none =>
    match update.message with
    | none => .error "AttributeError: \x27NoneType\x27 object has no attribute \x27reply_text\x27"
    | some _ => .ok (none, [.reply mustSetKeyMsg])
  | some user_key =>
    match update.message with
    | none => .ok (some user_key, [])
    | some msg =>
      match msg.text with
      | none => .ok (some user_key, [])
      | some user_text =>
        if user_text = "" then .ok (some user_key, [])
        else
          .ok (some user_key,
            .chatAction ::
            .completionRequest user_key MODELLO_IA (requestMessages user_text) ::
            (match provider user_key MODELLO_IA (requestMessages user_text) with
             | .ok completion =>
               match completion.choices with
               | [] =>
                   [.log .error (openRouterErrLog update.effectiveUserId "list index out of range"),
                    .reply genericErrorMsg]
               | choice :: _ => [.reply choice.message.content]
             | .error e =>
                   [.log .error (openRouterErrLog update.effectiveUserId e),
                    .reply (if pyIn incorrectKeySignal e then incorrectKeyMsg
                            else genericErrorMsg)]))

/-- `bot.py` line 30: the fatal configuration error message. -/
def tokenMissingMsg : String :=
  "TELEGRAM_BOT_TOKEN non trovato. Assicurati che sia nelle variabili d\x27ambiente."

/-- `bot.py` lines 28-30: module-level load of `TELEGRAM_BOT_TOKEN`; a missing
or empty (falsy) value raises `ValueError`, aborting the process. -/
def load_token : Option String → Except String String
  | none => .error tokenMissingMsg
  | some t => if t = "" then .error tokenMissingMsg else .ok t

/-- Observable effects of the FastAPI startup hook, in execution order. -/
inductive StartupEffect
  | setWebhook (url : String)
  | logWebhookWarning
  | scheduleJob (intervalSeconds firstSeconds : Nat)
  | applicationStart
deriving DecidableEq, Repr

/-- `bot.py` lines 171-196, `startup_event`: set the webhook when both
`WEBHOOK_URL` and `TELEGRAM_TOKEN` are truthy, otherwise only log a warning;
schedule the anti-sleep ping job when `HEALTHCHECKS_URL` is truthy; finally
start the application.  Nothing here aborts startup. -/
def startup_event (token : String) (webhookUrl healthchecksUrl : Option String) :
    List StartupEffect :=
  (match webhookUrl with
   | some w =>
       if w ≠ "" ∧ token ≠ "" then [.setWebhook (w ++ "/" ++ token)]
       else [.logWebhookWarning]
   | none => [.logWebhookWarning])
  ++ (match healthchecksUrl with
      | some h => if h ≠ "" then [.scheduleJob 600 1] else []
      | none => [])
  ++ [.applicationStart]

/-- Outcome of launching the process with a given environment. -/
inductive StartResult
  | fatal (msg : String)
  | started (effects : List StartupEffect)
deriving DecidableEq, Repr

/-- Whether the process refused to start. -/
def StartResult.isFatal : StartResult → Bool
  | .fatal _ => true
  | .started _ => false

/-- Process launch: module load (`bot.py` lines 28-30) followed by the FastAPI
startup hook (`bot.py` lines 171-196), from the three environment values. -/
def process_start (tokenEnv webhookEnv healthEnv : Option String) : StartResult :=
  match load_token tokenEnv with
  | .error m => .fatal m
  | .ok t => .started (startup_event t webhookEnv healthEnv)

/-- C1: for a user with a stored key, handling a non-empty inbound text
message issues exactly one outbound completion request — carrying the stored
key, the single fixed model identifier and the fixed system prompt together
with the literal message text — and the reply sent back is the first
completion choice's message content, verbatim; the store is unchanged. -/
theorem handle_message_with_key_success (key userText : String) (uid : Nat)
    (hne : userText ≠ "") (c : Choice) (rest : List Choice) (provider : Provider)
    (hp : provider key MODELLO_IA (requestMessages userText) = .ok ⟨c :: rest⟩) :
    handle_message (some key) ⟨uid, some ⟨some userText⟩⟩ provider =
      .ok (some key,
        [.chatAction,
         .completionRequest key MODELLO_IA (requestMessages userText),
         .reply c.message.content]) := by
  simp [handle_message, hne, hp]

/-- Witness for C1, on the spec's own example: key `sk-ABCDEFGH1234`, message
`hello`, stubbed provider returning content `hi there`. -/
theorem handle_message_with_key_success_example :
    handle_message (some "sk-ABCDEFGH1234") ⟨7, some ⟨some "hello"⟩⟩
      (fun _ _ _ => .ok ⟨[⟨⟨"hi there"⟩⟩]⟩) =
      .ok (some "sk-ABCDEFGH1234",
        [.chatAction,
         .completionRequest "sk-ABCDEFGH1234" MODELLO_IA (requestMessages "hello"),
         .reply "hi there"]) :=
  handle_message_with_key_success "sk-ABCDEFGH1234" "hello" 7 (by decide)
    ⟨⟨"hi there"⟩⟩ [] _ rfl

/-- C2: for a user with no stored key, handling an inbound chat message (any
message payload, any provider) returns exactly the fixed set-a-key guidance
reply, issues no completion request, and leaves the store unchanged. -/
theorem handle_message_no_key (uid : Nat) (m : Message) (provider : Provider) :
    handle_message none ⟨uid, some m⟩ provider = .ok (none, [.reply mustSetKeyMsg]) :=
  rfl

/-- C3: when the completion request fails, exactly one user-facing reply is
sent: the incorrect-key reply when the error text contains the
`"Incorrect API key"` signal, the generic reply otherwise; the request effect
occurs exactly once (no retry). -/
theorem handle_message_provider_error (key userText e : String) (uid : Nat)
    (hne : userText ≠ "") (provider : Provider)
    (hp : provider key MODELLO_IA (requestMessages userText) = .error e) :
    handle_message (some key) ⟨uid, some ⟨some userText⟩⟩ provider =
      .ok (some key,
        [.chatAction,
         .completionRequest key MODELLO_IA (requestMessages userText),
         .log .error (openRouterErrLog uid e),
         .reply (if pyIn incorrectKeySignal e then incorrectKeyMsg
                 else genericErrorMsg)]) := by
  simp [handle_message, hne, hp]

/-- Witness for C3, both classification branches at concrete error texts. -/
theorem handle_message_provider_error_example :
    (handle_message (some "k1") ⟨3, some ⟨some "hi"⟩⟩
        (fun _ _ _ => .error "Error code: 401 - Incorrect API key provided") =
      .ok (some "k1",
        [.chatAction,
         .completionRequest "k1" MODELLO_IA (requestMessages "hi"),
         .log .error (openRouterErrLog 3 "Error code: 401 - Incorrect API key provided"),
         .reply incorrectKeyMsg])) ∧
    (handle_message (some "k1") ⟨3, some ⟨some "hi"⟩⟩
        (fun _ _ _ => .error "connection timed out") =
      .ok (some "k1",
        [.chatAction,
         .completionRequest "k1" MODELLO_IA (requestMessages "hi"),
         .log .error (openRouterErrLog 3 "connection timed out"),
         .reply genericErrorMsg])) :=
  ⟨(handle_message_provider_error "k1" "hi"
      "Error code: 401 - Incorrect API key provided" 3 (by decide) _ rfl).trans
      (by rfl),
   (handle_message_provider_error "k1" "hi" "connection timed out" 3
      (by decide) _ rfl).trans (by rfl)⟩

/-- C4: setting a key of length ≥ 8 stores it, and the `/mykey` preview of
that key is exactly the first 4 code points, one `...` separator, then the
last 4 code points — in particular it begins with the first 4 and ends with
the last 4 characters of the key, each of length exactly 4. -/
theorem set_key_then_my_key_preview (uid : Nat) (st : Option String)
    (k : String) (rest : List String) (d : Except String Unit)
    (h : 8 ≤ k.length) :
    (set_key uid st (k :: rest) d).fst = some k ∧
    my_key (some k) =
      [.reply ("You have an API key set: \x60" ++ key_preview k ++ "\x60")] ∧
    key_preview k = pyTake k 4 ++ "..." ++ pyTakeLast k 4 ∧
    (pyTake k 4).data <+: (key_preview k).data ∧
    (pyTakeLast k 4).data <:+ (key_preview k).data ∧
    (pyTake k 4).length = 4 ∧
    (pyTakeLast k 4).length = 4 := by
  have hlen : k.length = k.data.length := rfl
  refine ⟨?_, rfl, rfl, ?_, ?_, ?_, ?_⟩
  · cases d <;> rfl
  · exact ⟨("..." ++ pyTakeLast k 4).data,
      by simp [key_preview, String.data_append]⟩
  · exact ⟨(pyTake k 4 ++ "...").data,
      by simp [key_preview, String.data_append]⟩
  · show (k.data.take 4).length = 4
    rw [List.length_take]
    omega
  · show (k.data.drop (k.length - 4)).length = 4
    rw [List.length_drop]
    omega

/-- Witness for C4, on the spec's example key `sk-ABCDEFGH1234`, whose
preview evaluates to `sk-A...1234`. -/
theorem set_key_then_my_key_preview_example :
    8 ≤ ("sk-ABCDEFGH1234" : String).length ∧
    ((set_key 0 none ["sk-ABCDEFGH1234"] (.ok ())).fst = some "sk-ABCDEFGH1234" ∧
     my_key (some "sk-ABCDEFGH1234") =
       [.reply ("You have an API key set: \x60"
          ++ key_preview "sk-ABCDEFGH1234" ++ "\x60")] ∧
     key_preview "sk-ABCDEFGH1234" =
       pyTake "sk-ABCDEFGH1234" 4 ++ "..." ++ pyTakeLast "sk-ABCDEFGH1234" 4 ∧
     (pyTake "sk-ABCDEFGH1234" 4).data <+: (key_preview "sk-ABCDEFGH1234").data ∧
     (pyTakeLast "sk-ABCDEFGH1234" 4).data <:+ (key_preview "sk-ABCDEFGH1234").data ∧
     (pyTake "sk-ABCDEFGH1234" 4).length = 4 ∧
     (pyTakeLast "sk-ABCDEFGH1234" 4).length = 4) ∧
    key_preview "sk-ABCDEFGH1234" = "sk-A...1234" :=
  ⟨by decide,
   set_key_then_my_key_preview 0 none "sk-ABCDEFGH1234" [] (.ok ()) (by decide),
   by decide⟩

/-- C5: deleting a key that was never set replies that there is nothing to
remove and leaves the (empty) store unchanged; `del_key` is a total function,
so no exception is raised. -/
theorem del_key_no_key :
    del_key none = (none, [.reply noKeyToRemoveMsg]) := rfl

/-- C6: invoked with a key argument, `set_key` unconditionally overwrites
whatever was stored: afterwards the stored key is exactly the new key,
whatever the previous store contents and whatever the deletion outcome.  The
store is an `Option`, so it holds at most one key per user by construction. -/
theorem set_key_overwrites (uid : Nat) (st : Option String) (k : String)
    (rest : List String) (d : Except String Unit) :
    (set_key uid st (k :: rest) d).fst = some k := by
  cases d <;> rfl

/-- C7: when deleting the key-carrying message fails, the key is still
saved, the failure produces only a warning log, and the fallback notice —
distinct from the normal confirmation — is the reply sent. -/
theorem set_key_delete_failure (uid : Nat) (st : Option String) (k : String)
    (rest : List String) (e : String) :
    set_key uid st (k :: rest) (.error e) =
      (some k,
        [.log .info (keySetLog uid), .log .warning (couldNotDeleteLog e),
         .reply savedFallbackMsg]) ∧
    savedFallbackMsg ≠ savedOkMsg :=
  ⟨rfl, by decide⟩

/-- C8 counterexample: with the bot token present but the public callback URL
missing, the process does not refuse to start — startup completes, only
logging a warning in place of webhook registration. -/
theorem process_start_missing_webhook :
    process_start (some "TOKEN") none none =
      .started [.logWebhookWarning, .applicationStart] ∧
    (process_start (some "TOKEN") none none).isFatal = false :=
  ⟨rfl, rfl⟩

/-- C8 amended: a missing (or empty, hence falsy) bot token is fatal — the
process refuses to start; a missing public callback URL is not fatal:
startup proceeds, logging a warning and skipping webhook registration. -/
theorem process_start_config (tok : String) (htok : tok ≠ "")
    (health : Option String) :
    (∀ web hc, process_start none web hc = .fatal tokenMissingMsg) ∧
    (∀ web hc, process_start (some "") web hc = .fatal tokenMissingMsg) ∧
    process_start (some tok) none health =
      .started ([.logWebhookWarning]
        ++ (match health with
            | some hu => if hu ≠ "" then [.scheduleJob 600 1] else []
            | none => [])
        ++ [.applicationStart]) := by
  have h1 : load_token (some tok) = .ok tok := by simp [load_token, htok]
  refine ⟨fun _ _ => rfl, fun _ _ => rfl, ?_⟩
  simp [process_start, h1, startup_event]

/-- Witness for C8's amended statement at a concrete environment. -/
theorem process_start_config_example :
    ("TOKEN" : String) ≠ "" ∧
    ((∀ web hc, process_start none web hc = .fatal tokenMissingMsg) ∧
     (∀ web hc, process_start (some "") web hc = .fatal tokenMissingMsg) ∧
     process_start (some "TOKEN") none none =
       .started ([.logWebhookWarning] ++ [] ++ [.applicationStart])) :=
  ⟨by decide, process_start_config "TOKEN" (by decide) none⟩

/-- C9: `/setkey` with no argument replies with the usage error and leaves
the store exactly as it was — any previously stored key is preserved and no
key is created. -/
theorem set_key_no_args (uid : Nat) (st : Option String)
    (d : Except String Unit) :
    set_key uid st [] d = (st, [.reply usageErrorMsg]) := rfl

/-- C10: with a stored key, an update with no message, no text, or empty
(falsy) text makes the handler return with no effects at all — no completion
request, no reply — and the store unchanged. -/
theorem handle_message_no_text (key : String) (uid : Nat) (provider : Provider) :
    handle_message (some key) ⟨uid, none⟩ provider = .ok (some key, []) ∧
    handle_message (some key) ⟨uid, some ⟨none⟩⟩ provider = .ok (some key, []) ∧
    handle_message (some key) ⟨uid, some ⟨some ""⟩⟩ provider = .ok (some key, []) := by
  refine ⟨rfl, rfl, ?_⟩
  simp [handle_message]

end WillBot
